import Mathlib

/-!
Shallow embedding of `src/backend/server.py` (an IoT hub backend):
the in-memory `ConnectionManager` (Session Registry), the device
WebSocket handler `websocket_device`, the dashboard WebSocket handler
`websocket_dashboard`, and the `control_pin` REST endpoint.

Modelling choices, all taken from the source:
 - Python `dict` is modelled as an association list with Python
   assignment / `del` / `in` / `.values()` semantics (`dictSet`,
   `dictDel`, `dictMem`, iteration in insertion order).
 - JSON values are the inductive `JVal`; `json.loads` of an inbound
   frame is modelled by the `Frame` type: a frame is either
   `malformed` (loads raises `JSONDecodeError`), `nonObject`
   (loads succeeds but `.get` on a non-dict raises), or `obj fields`.
 - MongoDB collections are in-memory lists; `find_one` is first match,
   `update_one` updates the first matching document (`updateFirst`).
 - `await`-able effects that can raise (per-recipient `send_json`,
   `insert_one`) are driven by an `Env` record saying which ones fail;
   an exception escaping the handler is an `ExitKind.uncaught` result.
 - Wall-clock timestamps are a monotonic `time : Nat` counter in the
   state, bumped at each `datetime.now` call.
-/

namespace IoTHub

/-- A live websocket object is identified by a numeric channel id. -/
abbrev ChannelId := Nat

/-- JSON values, as produced by `json.loads`. -/
inductive JVal where
  | null : JVal
  | bool : Bool → JVal
  | num : Int → JVal
  | str : String → JVal
  | arr : List JVal → JVal
  | obj : List (String × JVal) → JVal

/-- Python `j == "lit"` for a JSON value `j`: true only when `j` is the
string `lit` (comparison of a non-string with a string is `False`). -/
def JVal.isStr (j : JVal) (lit : String) : Bool :=
  match j with
  | .str t => t == lit
  | _ => false

/-- Python `d.get(k)` on a decoded JSON object: first binding wins
(`json.loads` collapses duplicate keys, so objects are duplicate-free). -/
def jget (fields : List (String × JVal)) (k : String) : Option JVal :=
  (fields.find? (fun p => p.1 == k)).map (·.2)

/-- Python `m[k] = v`: replace in place when the key is present,
append otherwise (insertion order preserved, as for a Python dict). -/
def dictSet : List (String × ChannelId) → String → ChannelId →
    List (String × ChannelId)
  | [], k, v => [(k, v)]
  | p :: rest, k, v => if p.1 == k then (k, v) :: rest else p :: dictSet rest k v

/-- Python `del m[k]`. -/
def dictDel (m : List (String × ChannelId)) (k : String) :
    List (String × ChannelId) :=
  m.filter (fun p => !(p.1 == k))

/-- Python `k in m`. -/
def dictMem (m : List (String × ChannelId)) (k : String) : Bool :=
  m.any (fun p => p.1 == k)

/-- Python `m[k]` / `m.get(k)` read. -/
def dictLookup (m : List (String × ChannelId)) (k : String) : Option ChannelId :=
  (m.find? (fun p => p.1 == k)).map (·.2)

/-- Number of entries stored under key `k`. -/
def countKey (m : List (String × ChannelId)) (k : String) : Nat :=
  (m.filter (fun p => p.1 == k)).length

/-- A document of the `devices` Mongo collection (fields the core
touches; `firmware_version` is stored as raw JSON because
`update_one` writes `message.get('version')` verbatim). -/
structure DeviceRecord where
  id : String
  device_type_id : String
  auth_token : String
  user_id : String
  status : String
  last_seen : Option Nat
  firmware_version : JVal

/-- A document of the `sensor_data` Mongo collection. -/
structure SensorRecord where
  device_id : String
  data : JVal
  timestamp : Nat

/-- `update_one`: rewrite the first element satisfying `p`. -/
def updateFirst {α : Type} (p : α → Bool) (f : α → α) : List α → List α
  | [] => []
  | a :: rest => if p a then f a :: rest else a :: updateFirst p f rest

/-- The `ConnectionManager` of server.py: two dict partitions,
`active_connections` for dashboards and `device_connections` for devices. -/
structure ConnectionManager where
  active_connections : List (String × ChannelId)
  device_connections : List (String × ChannelId)

/-- `ConnectionManager.connect` (after `websocket.accept()`): store the
channel under the client id in the partition chosen by `client_type`. -/
def ConnectionManager.connect (m : ConnectionManager) (client_id : String)
    (ws : ChannelId) (client_type : String) : ConnectionManager :=
  if client_type == "device" then
    { m with device_connections := dictSet m.device_connections client_id ws }
  else
    { m with active_connections := dictSet m.active_connections client_id ws }

/-- `ConnectionManager.disconnect`: delete the entry when present. -/
def ConnectionManager.disconnect (m : ConnectionManager) (client_id : String)
    (client_type : String) : ConnectionManager :=
  if client_type == "device" then
    { m with device_connections :=
        if dictMem m.device_connections client_id then
          dictDel m.device_connections client_id
        else m.device_connections }
  else
    { m with active_connections :=
        if dictMem m.active_connections client_id then
          dictDel m.active_connections client_id
        else m.active_connections }

/-- Outbound envelopes (`send_json` payloads) built by server.py. -/
inductive Msg where
  | deviceStatus (device_id : String) (status : String)
  | sensorData (device_id : String) (data : JVal)
  | firmwareUpdateStatus (device_id : String) (status : JVal) (version : JVal)
  | pinControl (pin : String) (value : JVal)

/-- Whole-system state: the manager, the two Mongo collections the core
writes, an observation log of delivered `send_json` calls, of
`websocket.close` calls, of `websocket.accept` calls, and the clock. -/
structure SysState where
  mgr : ConnectionManager
  devices : List DeviceRecord
  sensor_data : List SensorRecord
  sent : List (ChannelId × Msg)
  closes : List (ChannelId × Nat)
  accepted : List ChannelId
  time : Nat

/-- Which awaited effects raise in a given run. -/
structure Env where
  sendFails : ChannelId → Bool
  insertSensorFails : Bool

/-- One pass of `broadcast_to_users`'s `for` loop over the channel list:
each `send_json` is awaited in order; the first failing send raises out
of the loop. Returns the channels actually delivered to and whether the
loop raised. -/
def broadcastRun (conns : List ChannelId) (fails : ChannelId → Bool) :
    List ChannelId × Bool :=
  match conns with
  | [] => ([], false)
  | c :: rest =>
    if fails c then ([], true)
    else
      let r := broadcastRun rest fails
      (c :: r.1, r.2)

/-- `ConnectionManager.broadcast_to_users`: iterate
`active_connections.values()` and `send_json` to each in turn. -/
def ConnectionManager.broadcast_to_users (m : ConnectionManager)
    (fails : ChannelId → Bool) : List ChannelId × Bool :=
  broadcastRun (m.active_connections.map (·.2)) fails

/-- Run a broadcast against the state: log the delivered sends and
report whether the loop raised. -/
def doBroadcast (env : Env) (s : SysState) (msg : Msg) : SysState × Bool :=
  let r := s.mgr.broadcast_to_users env.sendFails
  ({ s with sent := s.sent ++ r.1.map (fun c => (c, msg)) }, r.2)

/-- `ConnectionManager.send_to_device`: unicast that silently does
nothing when no channel is registered for the device. -/
def send_to_device (s : SysState) (device_id : String) (msg : Msg) : SysState :=
  match dictLookup s.mgr.device_connections device_id with
  | some ws => { s with sent := s.sent ++ [(ws, msg)] }
  | none => s

/-- How a `websocket_device` task ends. -/
inductive ExitKind where
  | authRejected (code : Nat)
  | cleanExit
  | uncaught (reason : String)
  deriving DecidableEq

/-- One inbound text frame, as seen after `json.loads`. -/
inductive Frame where
  | malformed (raw : String)
  | nonObject (value : JVal)
  | obj (fields : List (String × JVal))

/-- The connect-side mutation of the device lifecycle (server.py lines
382-388): `manager.connect(ws, device_id, "device")` followed by the
`update_one` that sets `status: online` and `last_seen: now`. -/
def connectStep (s : SysState) (device_id : String) (ws : ChannelId) : SysState :=
  let s1 := { s with accepted := s.accepted ++ [ws],
                     mgr := s.mgr.connect device_id ws "device" }
  { s1 with devices := updateFirst (fun r => r.id == device_id)
              (fun r => { r with status := "online", last_seen := some s1.time })
              s1.devices,
            time := s1.time + 1 }

/-- The disconnect-side mutation of the device lifecycle (server.py
lines 435-441): `manager.disconnect(device_id, "device")` followed by
the `update_one` that sets `status: offline` and `last_seen: now`. -/
def disconnectStep (s : SysState) (device_id : String) : SysState :=
  let s1 := { s with mgr := s.mgr.disconnect device_id "device" }
  { s1 with devices := updateFirst (fun r => r.id == device_id)
              (fun r => { r with status := "offline", last_seen := some s1.time })
              s1.devices,
            time := s1.time + 1 }

/-- Handle one decoded frame inside the message loop (server.py lines
400-432). Returns the new state and `some reason` when an exception
escapes (which the surrounding `try` does not catch). -/
def processFrame (env : Env) (s : SysState) (device_id : String) (f : Frame) :
    SysState × Option String :=
  match f with
  | .malformed _ => (s, some "JSONDecodeError")
  | .nonObject _ => (s, some "AttributeError")
  | .obj fields =>
    match jget fields "type" with
    | some (JVal.str t) =>
      if t == "sensor_data" then
        let data := (jget fields "data").getD (JVal.obj [])
        if env.insertSensorFails then (s, some "insert_one raised")
        else
          let s1 := { s with
            sensor_data := s.sensor_data ++ [⟨device_id, data, s.time⟩],
            time := s.time + 1 }
          let r := doBroadcast env s1 (.sensorData device_id data)
          (r.1, if r.2 then some "send_json raised" else none)
      else if t == "firmware_update_status" then
        let st := jget fields "status"
        let ver := (jget fields "version").getD JVal.null
        let s1 :=
          if (st.getD JVal.null).isStr "success" then
            { s with devices := updateFirst (fun r => r.id == device_id)
                       (fun r => { r with firmware_version := ver }) s.devices }
          else s
        let r := doBroadcast env s1
          (.firmwareUpdateStatus device_id (st.getD JVal.null) ver)
        (r.1, if r.2 then some "send_json raised" else none)
      else (s, none)
    | _ => (s, none)

/-- The `while True` receive loop plus the `except WebSocketDisconnect`
branch. The frames are the texts received before the transport closes;
when they are exhausted, `receive_text` raises `WebSocketDisconnect`
and the cleanup branch runs. Any other exception escapes without
cleanup. The `Nat` counts how many times the disconnect path
(registry removal + offline update + offline broadcast) was invoked. -/
def runLoop (env : Env) (device_id : String) (s : SysState) :
    List Frame → SysState × ExitKind × Nat
  | [] =>
    let s1 := disconnectStep s device_id
    let r := doBroadcast env s1 (.deviceStatus device_id "offline")
    (r.1, if r.2 then ExitKind.uncaught "send_json raised in cleanup"
          else ExitKind.cleanExit, 1)
  | f :: rest =>
    let p := processFrame env s device_id f
    match p.2 with
    | none => runLoop env device_id p.1 rest
    | some reason => (p.1, ExitKind.uncaught reason, 0)

/-- `websocket_device` (server.py lines 374-448): auth gate, connect
step, online broadcast, then the message loop. -/
def websocket_device (env : Env) (s : SysState) (device_id auth_token : String)
    (ws : ChannelId) (frames : List Frame) : SysState × ExitKind × Nat :=
  match s.devices.find? (fun r => r.id == device_id && r.auth_token == auth_token) with
  | none =>
    ({ s with closes := s.closes ++ [(ws, 4001)] }, ExitKind.authRejected 4001, 0)
  | some _ =>
    let s1 := connectStep s device_id ws
    let r := doBroadcast env s1 (.deviceStatus device_id "online")
    if r.2 then (r.1, ExitKind.uncaught "send_json raised", 0)
    else runLoop env device_id r.1 frames

/-- The connect half of `websocket_dashboard` (server.py lines 363-365):
accept and register under `user_id` in the dashboard partition, with no
credential check of any kind. -/
def dashboardConnect (s : SysState) (user_id : String) (ws : ChannelId) : SysState :=
  { s with accepted := s.accepted ++ [ws],
           mgr := s.mgr.connect user_id ws "user" }

/-- `websocket_dashboard` (server.py lines 363-371): connect, discard
every received text, and on `WebSocketDisconnect` remove the entry. -/
def websocket_dashboard (s : SysState) (user_id : String) (ws : ChannelId)
    (msgs : List String) : SysState :=
  let s1 := dashboardConnect s user_id ws
  let _ := msgs
  { s1 with mgr := s1.mgr.disconnect user_id "user" }

/-- Result of an HTTP endpoint call. -/
inductive ApiResult where
  | ok (pin : String) (value : JVal)
  | httpError (code : Nat) (detail : String)

/-- `control_pin` (server.py lines 330-342): ownership lookup, 404 when
absent, otherwise unicast `pin_control` and return success. -/
def control_pin (s : SysState) (current_user_id device_id pin : String)
    (value : JVal) : SysState × ApiResult :=
  match s.devices.find? (fun r => r.id == device_id && r.user_id == current_user_id) with
  | none => (s, .httpError 404 "Device not found")
  | some _ =>
    let s1 := send_to_device s device_id (.pinControl pin value)
    (s1, .ok pin value)

/-- `status` of the first `devices` document with the given id
(Mongo `find_one {'id': d}`). -/
def statusOf (devices : List DeviceRecord) (d : String) : Option String :=
  (devices.find? (fun r => r.id == d)).map (·.status)

/-- The liveness invariant of the spec: a device has a registry entry
iff its persisted status is `online`. -/
def liveInv (s : SysState) : Prop :=
  ∀ d : String, dictMem s.mgr.device_connections d = true ↔
    statusOf s.devices d = some "online"

/-! ### Concrete fixtures used by witnesses and counterexamples -/

/-- A run in which no awaited effect fails. -/
def envOK : Env := ⟨fun _ => false, false⟩

/-- A run in which `db.sensor_data.insert_one` raises. -/
def envInsertFail : Env := ⟨fun _ => false, true⟩

/-- A registered device record (offline, token `t1`, owned by `u1`). -/
def dev1 : DeviceRecord := ⟨"d1", "ty1", "t1", "u1", "offline", none, JVal.str "1.0.0"⟩

/-- Starting state: device `d1` registered in the store, no connections. -/
def s0 : SysState := ⟨⟨[], []⟩, [dev1], [], [], [], [], 0⟩

/-- Starting state: one dashboard (`u1` on channel 1), device `d1` offline. -/
def sDash : SysState := ⟨⟨[("u1", 1)], []⟩, [dev1], [], [], [], [], 0⟩

/-- The `d1` record while connected. -/
def dev1on : DeviceRecord := ⟨"d1", "ty1", "t1", "u1", "online", some 0, JVal.str "1.0.0"⟩

/-- Mid-session state: `d1`'s first connection holds channel 5, one
dashboard on channel 1. -/
def sConn : SysState := ⟨⟨[("u1", 1)], [("d1", 5)]⟩, [dev1on], [], [], [], [5], 1⟩

/-- A well-formed `sensor_data` frame. -/
def sensorFrame : Frame :=
  .obj [("type", JVal.str "sensor_data"), ("data", JVal.obj [("temp", JVal.num 21)])]

/-- Fields of a well-formed successful `firmware_update_status` frame. -/
def fwFields : List (String × JVal) :=
  [("type", JVal.str "firmware_update_status"),
   ("status", JVal.str "success"), ("version", JVal.str "2.0.0")]

/-- A well-formed successful `firmware_update_status` frame. -/
def fwFrame : Frame := .obj fwFields

/-- A manager with two dashboard connections and no devices. -/
def mgr2 : ConnectionManager := ⟨[("ua", 1), ("ub", 2)], []⟩

/-- `firmware_version` of the first `devices` document with the given id. -/
def firmwareOf (devices : List DeviceRecord) (d : String) : Option JVal :=
  (devices.find? (fun r => r.id == d)).map (·.firmware_version)

/-! ### Dictionary lemmas -/

theorem dictMem_cons (p : String × ChannelId) (m : List (String × ChannelId))
    (k : String) : dictMem (p :: m) k = ((p.1 == k) || dictMem m k) := by
  simp [dictMem]

theorem dictDel_cons (p : String × ChannelId) (m : List (String × ChannelId))
    (k : String) :
    dictDel (p :: m) k = if p.1 == k then dictDel m k else p :: dictDel m k := by
  by_cases hp : p.1 == k <;> simp [dictDel, List.filter_cons, hp]

theorem dictLookup_cons (p : String × ChannelId) (m : List (String × ChannelId))
    (k : String) :
    dictLookup (p :: m) k = if p.1 == k then some p.2 else dictLookup m k := by
  by_cases hp : p.1 == k
  · simp [dictLookup, List.find?_cons_of_pos, hp]
  · simp [dictLookup, List.find?_cons_of_neg, hp]

theorem countKey_cons (p : String × ChannelId) (m : List (String × ChannelId))
    (k : String) :
    countKey (p :: m) k = if p.1 == k then countKey m k + 1 else countKey m k := by
  by_cases hp : p.1 == k <;> simp [countKey, List.filter_cons, hp]

theorem dictMem_dictSet (m : List (String × ChannelId)) (k : String)
    (v : ChannelId) (e : String) :
    dictMem (dictSet m k v) e = (dictMem m e || (k == e)) := by
  induction m with
  | nil => simp [dictSet, dictMem_cons, dictMem, Bool.or_comm]
  | cons p rest ih =>
    by_cases hp : p.1 == k
    · have hp1 : p.1 = k := by simpa using hp
      by_cases hke : k == e
      · simp [dictSet, hp, dictMem_cons, hp1, hke]
      · have hke' : (k == e) = false := by simpa using hke
        simp [dictSet, hp, dictMem_cons, hp1, hke']
    · simp [dictSet, hp, dictMem_cons, ih, Bool.or_assoc]

theorem dictLookup_dictSet_self (m : List (String × ChannelId)) (k : String)
    (v : ChannelId) : dictLookup (dictSet m k v) k = some v := by
  induction m with
  | nil => simp [dictSet, dictLookup_cons, dictLookup]
  | cons p rest ih =>
    by_cases hp : p.1 == k
    · simp [dictSet, hp, dictLookup_cons]
    · simp [dictSet, hp, dictLookup_cons, ih]

theorem dictMem_dictDel_self (m : List (String × ChannelId)) (k : String) :
    dictMem (dictDel m k) k = false := by
  induction m with
  | nil => rfl
  | cons p rest ih =>
    by_cases hp : p.1 == k
    · simp [dictDel_cons, hp, ih]
    · have hp' : (p.1 == k) = false := by simpa using hp
      simp [dictDel_cons, hp', dictMem_cons, ih]

theorem dictMem_dictDel_ne (m : List (String × ChannelId)) (k e : String)
    (h : k ≠ e) : dictMem (dictDel m k) e = dictMem m e := by
  induction m with
  | nil => rfl
  | cons p rest ih =>
    by_cases hp : p.1 == k
    · have hp1 : p.1 = k := by simpa using hp
      have hpe : (p.1 == e) = false := by rw [hp1]; simpa using h
      simp [dictDel_cons, hp, dictMem_cons, hpe, ih]
    · simp [dictDel_cons, hp, dictMem_cons, ih]

theorem dictLookup_dictDel_self (m : List (String × ChannelId)) (k : String) :
    dictLookup (dictDel m k) k = none := by
  induction m with
  | nil => rfl
  | cons p rest ih =>
    by_cases hp : p.1 == k
    · simp [dictDel_cons, hp, ih]
    · simp [dictDel_cons, hp, dictLookup_cons, ih]

theorem countKey_pos_of_mem (m : List (String × ChannelId)) (k : String)
    (h : dictMem m k = true) : 1 ≤ countKey m k := by
  induction m with
  | nil => simp [dictMem] at h
  | cons p rest ih =>
    by_cases hp : p.1 == k
    · simp [countKey_cons, hp]
    · rw [dictMem_cons] at h
      have hp' : (p.1 == k) = false := by simpa using hp
      rw [hp', Bool.false_or] at h
      simpa [countKey_cons, hp] using ih h

theorem countKey_dictSet_self (m : List (String × ChannelId)) (k : String)
    (v : ChannelId) :
    countKey (dictSet m k v) k =
      if dictMem m k then countKey m k else countKey m k + 1 := by
  induction m with
  | nil => simp [dictSet, dictMem, countKey_cons, countKey]
  | cons p rest ih =>
    by_cases hp : p.1 == k
    · simp [dictSet, hp, countKey_cons, dictMem_cons]
    · simp [dictSet, hp, countKey_cons, dictMem_cons, ih]

/-! ### updateFirst and broadcast lemmas -/

theorem find?_updateFirst_self {α : Type} (p : α → Bool) (f : α → α)
    (hpf : ∀ a, p (f a) = p a) (l : List α) :
    (updateFirst p f l).find? p = (l.find? p).map f := by
  induction l with
  | nil => rfl
  | cons a rest ih =>
    by_cases ha : p a
    · simp [updateFirst, ha, List.find?_cons_of_pos, hpf]
    · simp [updateFirst, ha, List.find?_cons_of_neg, ih]

theorem find?_updateFirst_other {α : Type} (p q : α → Bool) (f : α → α)
    (hq : ∀ a, p a = true → q a = false) (hfq : ∀ a, q (f a) = q a)
    (l : List α) : (updateFirst p f l).find? q = l.find? q := by
  induction l with
  | nil => rfl
  | cons a rest ih =>
    by_cases ha : p a
    · have hqa : q a = false := hq a ha
      have hqfa : q (f a) = false := by rw [hfq]; exact hqa
      simp [updateFirst, ha, List.find?_cons_of_neg, hqa, hqfa]
    · by_cases hqa : q a
      · simp [updateFirst, ha, List.find?_cons_of_pos, hqa]
      · simp [updateFirst, ha, List.find?_cons_of_neg, hqa, ih]

theorem broadcastRun_eq (fails : ChannelId → Bool) (l : List ChannelId) :
    broadcastRun l fails = (l.takeWhile (fun c => !fails c), l.any fails) := by
  induction l with
  | nil => rfl
  | cons c rest ih =>
    by_cases hc : fails c
    · simp [broadcastRun, hc, List.takeWhile_cons, List.any_cons]
    · have hc' : fails c = false := by simpa using hc
      simp [broadcastRun, hc', List.takeWhile_cons, List.any_cons, ih]

theorem broadcastRun_no_fail (fails : ChannelId → Bool)
    (h : ∀ c, fails c = false) (l : List ChannelId) :
    broadcastRun l fails = (l, false) := by
  induction l with
  | nil => rfl
  | cons c rest ih => simp [broadcastRun, h c, ih]

/-! ### Clean-run lemmas for the message loop -/

theorem processFrame_obj_clean (env : Env) (s : SysState) (d : String)
    (fields : List (String × JVal)) (hins : env.insertSensorFails = false)
    (hsend : ∀ c, env.sendFails c = false) :
    (processFrame env s d (.obj fields)).2 = none := by
  simp only [processFrame]
  cases hty : jget fields "type" with
  | none => rfl
  | some j =>
    cases j with
    | str t =>
      by_cases hsens : t == "sensor_data"
      · simp [hsens, hins, doBroadcast, ConnectionManager.broadcast_to_users,
          broadcastRun_no_fail env.sendFails hsend]
      · by_cases hfw : t == "firmware_update_status"
        · simp [hsens, hfw, doBroadcast, ConnectionManager.broadcast_to_users,
            broadcastRun_no_fail env.sendFails hsend]
        · simp [hsens, hfw]
    | null => rfl
    | bool b => rfl
    | num n => rfl
    | arr a => rfl
    | obj o => rfl

theorem runLoop_clean (env : Env) (d : String)
    (hins : env.insertSensorFails = false)
    (hsend : ∀ c, env.sendFails c = false) (frames : List Frame) :
    ∀ s : SysState, (∀ f ∈ frames, ∃ fl, f = Frame.obj fl) →
      (runLoop env d s frames).2 = (ExitKind.cleanExit, 1) := by
  induction frames with
  | nil =>
    intro s _
    simp [runLoop, doBroadcast, ConnectionManager.broadcast_to_users,
      broadcastRun_no_fail env.sendFails hsend]
  | cons f rest ih =>
    intro s hf
    obtain ⟨fl, rfl⟩ := hf f (List.mem_cons_self f rest)
    have hclean := processFrame_obj_clean env s d fl hins hsend
    simp only [runLoop, hclean]
    exact ih _ (fun g hg => hf g (List.mem_cons_of_mem _ hg))

/-! ### Status and firmware projections under updateFirst -/

theorem statusOf_updateFirst_set (l : List DeviceRecord) (d st : String)
    (ls : Option Nat) :
    statusOf (updateFirst (fun r => r.id == d)
      (fun r => { r with status := st, last_seen := ls }) l) d
      = (l.find? (fun r => r.id == d)).map (fun _ => st) := by
  unfold statusOf
  rw [find?_updateFirst_self (fun r => r.id == d)
    (fun r => { r with status := st, last_seen := ls }) (fun a => rfl) l]
  cases l.find? (fun r => r.id == d) <;> rfl

theorem statusOf_updateFirst_ne (l : List DeviceRecord) (d e : String)
    (f : DeviceRecord → DeviceRecord) (hid : ∀ r, (f r).id = r.id)
    (hde : d ≠ e) :
    statusOf (updateFirst (fun r => r.id == d) f l) e = statusOf l e := by
  unfold statusOf
  rw [find?_updateFirst_other (fun r => r.id == d) (fun r => r.id == e) f
    (fun a ha => by
      have h1 : a.id = d := by simpa using ha
      show (a.id == e) = false
      rw [h1]
      simpa using hde)
    (fun a => by
      show ((f a).id == e) = (a.id == e)
      rw [hid]) l]

theorem firmwareOf_updateFirst_set (l : List DeviceRecord) (d : String)
    (ver : JVal) (hrec : (l.find? (fun r => r.id == d)).isSome = true) :
    firmwareOf (updateFirst (fun r => r.id == d)
      (fun r => { r with firmware_version := ver }) l) d = some ver := by
  unfold firmwareOf
  rw [find?_updateFirst_self (fun r => r.id == d)
    (fun r => { r with firmware_version := ver }) (fun a => rfl) l]
  obtain ⟨r, hr⟩ := Option.isSome_iff_exists.mp hrec
  rw [hr]
  rfl

theorem dictLookup_eq_none_of_not_mem (m : List (String × ChannelId))
    (k : String) (h : dictMem m k = false) : dictLookup m k = none := by
  induction m with
  | nil => rfl
  | cons p rest ih =>
    rw [dictMem_cons, Bool.or_eq_false_iff] at h
    simp [dictLookup_cons, h.1, ih h.2]

theorem countKey_eq_zero_of_not_mem (m : List (String × ChannelId))
    (k : String) (h : dictMem m k = false) : countKey m k = 0 := by
  induction m with
  | nil => rfl
  | cons p rest ih =>
    rw [dictMem_cons, Bool.or_eq_false_iff] at h
    simp [countKey_cons, h.1, ih h.2]

/-! ### Claim theorems -/

/-- C1: for every device id, the registry/liveness equivalence
(`d` has a channel handle in the device partition iff the persisted
`status` is `online`) is preserved by both the connect step and the
disconnect step of the device connection lifecycle, provided the device
record exists (which the auth gate guarantees before the connect step
runs). The instants between un-announced sub-operations are the spec's
consistency window; the steps are the atomic units it announces. -/
theorem C1_connect_disconnect_preserve_liveness (s : SysState) (d : String)
    (ws : ChannelId)
    (hrec : (s.devices.find? (fun r => r.id == d)).isSome = true)
    (hinv : liveInv s) :
    liveInv (connectStep s d ws) ∧ liveInv (disconnectStep s d) := by
  have hC1 : (connectStep s d ws).mgr.device_connections
      = dictSet s.mgr.device_connections d ws := rfl
  have hC2 : (connectStep s d ws).devices
      = updateFirst (fun r => r.id == d)
          (fun r => { r with status := "online", last_seen := some s.time })
          s.devices := rfl
  have hD1 : (disconnectStep s d).mgr.device_connections
      = (if dictMem s.mgr.device_connections d
         then dictDel s.mgr.device_connections d
         else s.mgr.device_connections) := rfl
  have hD2 : (disconnectStep s d).devices
      = updateFirst (fun r => r.id == d)
          (fun r => { r with status := "offline", last_seen := some s.time })
          s.devices := rfl
  simp only [liveInv] at hinv ⊢
  constructor
  · intro e
    rw [hC1, hC2, dictMem_dictSet]
    by_cases he : d = e
    · subst he
      rw [statusOf_updateFirst_set]
      obtain ⟨r, hr⟩ := Option.isSome_iff_exists.mp hrec
      rw [hr]
      simp
    · have hde : (d == e) = false := by simpa using he
      rw [hde, Bool.or_false,
        statusOf_updateFirst_ne s.devices d e
          (fun r => { r with status := "online", last_seen := some s.time })
          (fun r => rfl) he]
      exact hinv e
  · intro e
    rw [hD1, hD2]
    by_cases he : d = e
    · subst he
      rw [statusOf_updateFirst_set]
      have hLHS : dictMem (if dictMem s.mgr.device_connections d = true
          then dictDel s.mgr.device_connections d
          else s.mgr.device_connections) d = false := by
        by_cases h : dictMem s.mgr.device_connections d = true
        · rw [if_pos h]
          exact dictMem_dictDel_self _ _
        · rw [if_neg h]
          exact Bool.eq_false_iff.mpr h
      rw [hLHS]
      constructor
      · intro hfalse
        exact absurd hfalse (by decide)
      · intro hst
        exfalso
        cases hfind : s.devices.find? (fun r => r.id == d) with
        | none => rw [hfind] at hst; exact Option.noConfusion hst
        | some r =>
          rw [hfind] at hst
          simp at hst
    · rw [statusOf_updateFirst_ne s.devices d e
          (fun r => { r with status := "offline", last_seen := some s.time })
          (fun r => rfl) he]
      by_cases h : dictMem s.mgr.device_connections d = true
      · rw [if_pos h, dictMem_dictDel_ne _ _ _ he]
        exact hinv e
      · rw [if_neg h]
        exact hinv e

/-- Witness for C1: the invariant holds and is preserved at a concrete
state with one offline device. -/
theorem C1_witness :
    liveInv (connectStep s0 "d1" 7) ∧ liveInv (disconnectStep s0 "d1") :=
  C1_connect_disconnect_preserve_liveness s0 "d1" 7 rfl (by
    intro e
    constructor
    · intro h
      simp [s0, dictMem] at h
    · intro h
      by_cases he : dev1.id == e
      · simp [statusOf, s0, List.find?_cons_of_pos, he, dev1] at h
      · simp [statusOf, s0, List.find?_cons_of_neg, he] at h)

/-- C5: a connection attempt whose token does not match (or whose
device id has no record) is closed with code 4001 — a non-1000 code —
and nothing else happens: no registry entry, no liveness update, no
broadcast (the returned state differs from the input only in the
recorded `close`). -/
theorem C5_auth_reject_no_mutation (env : Env) (s : SysState)
    (device_id auth_token : String) (ws : ChannelId) (frames : List Frame)
    (h : ∀ r ∈ s.devices, ¬(r.id = device_id ∧ r.auth_token = auth_token)) :
    websocket_device env s device_id auth_token ws frames
      = ({ s with closes := s.closes ++ [(ws, 4001)] },
         ExitKind.authRejected 4001, 0) := by
  have hfind : s.devices.find?
      (fun r => r.id == device_id && r.auth_token == auth_token) = none := by
    rw [List.find?_eq_none]
    intro r hr
    have hnr := h r hr
    simp only [Bool.and_eq_true, beq_iff_eq]
    intro hcontra
    exact hnr ⟨hcontra.1, hcontra.2⟩
  simp [websocket_device, hfind]

/-- Witness for C5: a wrong token against the concrete store. -/
theorem C5_witness :
    websocket_device envOK s0 "d1" "wrong" 7 []
      = ({ s0 with closes := [(7, 4001)] }, ExitKind.authRejected 4001, 0) :=
  C5_auth_reject_no_mutation envOK s0 "d1" "wrong" 7 [] (by decide)

/-- C2 counterexample: a session that ends by protocol violation (a
frame that fails to decode) exits with the `json.loads` exception
uncaught and the disconnect path invoked zero times, not exactly once —
the `except WebSocketDisconnect` clause does not catch
`JSONDecodeError`. -/
theorem C2_counterexample :
    (websocket_device envOK s0 "d1" "t1" 7 [Frame.malformed "not json"]).2
      = (ExitKind.uncaught "JSONDecodeError", 0) := rfl

/-- C2 amended: the disconnect path (registry removal, offline update
with new `last_seen`, offline broadcast) runs exactly once when the
session ends by transport close — clean or abrupt, both surfacing as
`WebSocketDisconnect` — after only well-formed JSON-object frames and
with no store/send failure; when a frame fails to decode, the task
instead exits without ever invoking the disconnect path. -/
theorem C2_cleanup_once_on_transport_close (env : Env) (s : SysState)
    (device_id auth_token : String) (ws : ChannelId) (frames : List Frame)
    (hauth : (s.devices.find?
      (fun r => r.id == device_id && r.auth_token == auth_token)).isSome = true)
    (hins : env.insertSensorFails = false)
    (hsend : ∀ c, env.sendFails c = false)
    (hframes : ∀ f ∈ frames, ∃ fl, f = Frame.obj fl) :
    (websocket_device env s device_id auth_token ws frames).2
      = (ExitKind.cleanExit, 1) := by
  obtain ⟨r, hr⟩ := Option.isSome_iff_exists.mp hauth
  simp only [websocket_device, hr, doBroadcast,
    ConnectionManager.broadcast_to_users,
    broadcastRun_no_fail env.sendFails hsend, Bool.false_eq_true, if_false]
  exact runLoop_clean env device_id hins hsend frames _ hframes

/-- Witness for C2 amended: a clean two-frame session. -/
theorem C2_witness :
    (websocket_device envOK sDash "d1" "t1" 7 [sensorFrame, fwFrame]).2
      = (ExitKind.cleanExit, 1) :=
  C2_cleanup_once_on_transport_close envOK sDash "d1" "t1" 7
    [sensorFrame, fwFrame] rfl rfl (fun _ => rfl) (by
      intro f hf
      simp only [List.mem_cons, List.not_mem_nil, or_false] at hf
      rcases hf with rfl | rfl
      · exact ⟨_, rfl⟩
      · exact ⟨_, rfl⟩)

/-- C3 counterexample: a frame that fails to decode is not dropped with
the loop continuing — the uncaught `JSONDecodeError` terminates the
task (so the transport is closed by the framework), and a well-formed
`sensor_data` frame queued right after it is never processed (the
sensor store stays empty). -/
theorem C3_counterexample :
    (websocket_device envOK sDash "d1" "t1" 7
        [Frame.malformed "not json", sensorFrame]).1.sensor_data = []
    ∧ (websocket_device envOK sDash "d1" "t1" 7
        [Frame.malformed "not json", sensorFrame]).2
      = (ExitKind.uncaught "JSONDecodeError", 0) := ⟨rfl, rfl⟩

/-- C3 amended: only frames that *decode* but lack the `type`
discriminator (or carry an unrecognized one) are dropped with the loop
continuing and the connection staying open — processing such a frame is
a no-op and the loop proceeds with the remaining frames; a frame that
fails to decode terminates the connection task (and nothing is
logged). -/
theorem C3_unknown_type_dropped_loop_continues (env : Env) (s : SysState)
    (d : String) (fields : List (String × JVal)) (rest : List Frame)
    (h : ∀ t : String, jget fields "type" = some (JVal.str t) →
         t ≠ "sensor_data" ∧ t ≠ "firmware_update_status") :
    runLoop env d s (Frame.obj fields :: rest) = runLoop env d s rest := by
  have hpf : processFrame env s d (Frame.obj fields) = (s, none) := by
    simp only [processFrame]
    cases hty : jget fields "type" with
    | none => rfl
    | some j =>
      cases j with
      | str t =>
        obtain ⟨h1, h2⟩ := h t hty
        have hb1 : (t == "sensor_data") = false := by simpa using h1
        have hb2 : (t == "firmware_update_status") = false := by simpa using h2
        simp [hb1, hb2]
      | null => rfl
      | bool b => rfl
      | num n => rfl
      | arr a => rfl
      | obj o => rfl
  simp only [runLoop, hpf]

/-- Witness for C3 amended: a `ping` frame is skipped by the loop. -/
theorem C3_witness :
    runLoop envOK "d1" sDash [Frame.obj [("type", JVal.str "ping")]]
      = runLoop envOK "d1" sDash [] :=
  C3_unknown_type_dropped_loop_continues envOK sDash "d1"
    [("type", JVal.str "ping")] [] (by
      intro t ht
      rw [show jget [("type", JVal.str "ping")] "type"
            = some (JVal.str "ping") from rfl] at ht
      simp only [Option.some.injEq, JVal.str.injEq] at ht
      subst ht
      exact ⟨by decide, by decide⟩)

/-- C4 counterexample: with two registered dashboards where the send to
the first raises, `broadcast_to_users` delivers to nobody — the second
connection is never attempted — and the exception propagates out of the
broadcast call (the `raised` flag is `true`). -/
theorem C4_counterexample :
    mgr2.broadcast_to_users (fun c => c == 1) = ([], true) := rfl

/-- C4 amended: `broadcast_to_users` awaits each dashboard send in
registry order with no per-recipient error handling: it delivers
exactly to the prefix of connections before the first failing one, and
raises out of the broadcast call iff any send fails. -/
theorem C4_broadcast_stops_at_first_failure (m : ConnectionManager)
    (fails : ChannelId → Bool) :
    m.broadcast_to_users fails
      = ((m.active_connections.map (·.2)).takeWhile (fun c => !fails c),
         (m.active_connections.map (·.2)).any fails) :=
  broadcastRun_eq fails _

/-- C6 counterexample: device `d1` is connected on channel 5; it
reconnects on channel 6 before the first connection's cleanup runs
(`connectStep sConn "d1" 6`), then the stale connection's cleanup runs
(`disconnectStep`). Afterwards there is *no* registry entry for `d1`
(not exactly one) and the persisted status is `offline`, although the
new channel 6 is still open — `disconnect` deletes by device id
regardless of which channel the entry holds. -/
theorem C6_counterexample :
    dictLookup (disconnectStep (connectStep sConn "d1" 6)
        "d1").mgr.device_connections "d1" = none
    ∧ statusOf (disconnectStep (connectStep sConn "d1" 6) "d1").devices "d1"
      = some "offline" := ⟨rfl, rfl⟩

/-- C6 amended: `register` is last-writer-wins — immediately after a
reconnect's register, the registry holds exactly one entry for the
device id and it is the new channel. But if the prior connection's
cleanup runs *after* the re-register, it deletes the new entry and
sets the device offline: zero entries remain for a still-open channel,
so the "never a live channel without a registry entry" part of the
claim fails. -/
theorem C6_register_lww_stale_cleanup_evicts (s : SysState) (d : String)
    (wsNew : ChannelId)
    (hwf : countKey s.mgr.device_connections d ≤ 1) :
    dictLookup (connectStep s d wsNew).mgr.device_connections d = some wsNew
    ∧ countKey (connectStep s d wsNew).mgr.device_connections d = 1
    ∧ dictLookup (disconnectStep (connectStep s d wsNew)
        d).mgr.device_connections d = none
    ∧ statusOf (disconnectStep (connectStep s d wsNew) d).devices d
        = (s.devices.find? (fun r => r.id == d)).map (fun _ => "offline") := by
  have hC : (connectStep s d wsNew).mgr.device_connections
      = dictSet s.mgr.device_connections d wsNew := rfl
  refine ⟨?_, ?_, ?_, ?_⟩
  · rw [hC]
    exact dictLookup_dictSet_self _ _ _
  · rw [hC, countKey_dictSet_self]
    by_cases h : dictMem s.mgr.device_connections d = true
    · rw [if_pos h]
      exact Nat.le_antisymm hwf (countKey_pos_of_mem _ _ h)
    · rw [if_neg h]
      rw [countKey_eq_zero_of_not_mem _ _ (Bool.eq_false_iff.mpr h)]
  · have hD : (disconnectStep (connectStep s d wsNew) d).mgr.device_connections
        = (if dictMem (dictSet s.mgr.device_connections d wsNew) d
           then dictDel (dictSet s.mgr.device_connections d wsNew) d
           else dictSet s.mgr.device_connections d wsNew) := rfl
    rw [hD]
    have hmem : dictMem (dictSet s.mgr.device_connections d wsNew) d = true := by
      rw [dictMem_dictSet]
      simp
    rw [if_pos hmem]
    exact dictLookup_dictDel_self _ _
  · have hdev : (disconnectStep (connectStep s d wsNew) d).devices
        = updateFirst (fun r => r.id == d)
            (fun r => { r with status := "offline",
                               last_seen := some (connectStep s d wsNew).time })
            (updateFirst (fun r => r.id == d)
              (fun r => { r with status := "online", last_seen := some s.time })
              s.devices) := rfl
    rw [hdev, statusOf_updateFirst_set,
      find?_updateFirst_self (fun r => r.id == d)
        (fun r => { r with status := "online", last_seen := some s.time })
        (fun a => rfl) s.devices]
    cases s.devices.find? (fun r => r.id == d) <;> rfl

/-- Witness for C6 amended at the concrete race state. -/
theorem C6_witness :
    dictLookup (connectStep sConn "d1" 6).mgr.device_connections "d1" = some 6
    ∧ countKey (connectStep sConn "d1" 6).mgr.device_connections "d1" = 1
    ∧ dictLookup (disconnectStep (connectStep sConn "d1" 6)
        "d1").mgr.device_connections "d1" = none
    ∧ statusOf (disconnectStep (connectStep sConn "d1" 6) "d1").devices "d1"
        = (sConn.devices.find? (fun r => r.id == "d1")).map (fun _ => "offline") :=
  C6_register_lww_stale_cleanup_evicts sConn "d1" 6 (by decide)

/-- C7 counterexample: when `db.sensor_data.insert_one` raises, the
broadcast of the sensor payload is *not* attempted — the only message
the dashboard (channel 1) ever received is the connect-time
`device_status` event, and the handler dies with the uncaught insert
exception. -/
theorem C7_counterexample :
    (websocket_device envInsertFail sDash "d1" "t1" 7 [sensorFrame]).1.sent
      = [(1, Msg.deviceStatus "d1" "online")]
    ∧ (websocket_device envInsertFail sDash "d1" "t1" 7 [sensorFrame]).2
      = (ExitKind.uncaught "insert_one raised", 0) := ⟨rfl, rfl⟩

/-- C7 amended: when persistence succeeds, a `sensor_data` frame
appends a sensor-reading record (device id, the frame's payload, a
server-assigned timestamp) to the store and then broadcasts the same
payload to every dashboard connection as a `sensor_data` event; when
persistence raises, the exception propagates and the broadcast is not
attempted. -/
theorem C7_sensor_persist_then_broadcast (env : Env) (s : SysState)
    (d : String) (fields : List (String × JVal))
    (hins : env.insertSensorFails = false)
    (hsend : ∀ c, env.sendFails c = false)
    (hty : jget fields "type" = some (JVal.str "sensor_data")) :
    processFrame env s d (.obj fields)
      = ({ s with
            sensor_data := s.sensor_data
              ++ [⟨d, (jget fields "data").getD (JVal.obj []), s.time⟩],
            time := s.time + 1,
            sent := s.sent ++ (s.mgr.active_connections.map (·.2)).map
              (fun c => (c, Msg.sensorData d
                ((jget fields "data").getD (JVal.obj [])))) },
         none) := by
  simp only [processFrame, hty]
  simp [hins, doBroadcast, ConnectionManager.broadcast_to_users,
    broadcastRun_no_fail env.sendFails hsend]

/-- Witness for C7 amended: a concrete sensor frame against the state
with one dashboard. -/
theorem C7_witness :
    processFrame envOK sDash "d1"
        (.obj [("type", JVal.str "sensor_data"),
               ("data", JVal.obj [("temp", JVal.num 21)])])
      = ({ sDash with
            sensor_data := [⟨"d1", JVal.obj [("temp", JVal.num 21)], 0⟩],
            time := 1,
            sent := [(1, Msg.sensorData "d1" (JVal.obj [("temp", JVal.num 21)]))] },
         none) :=
  C7_sensor_persist_then_broadcast envOK sDash "d1"
    [("type", JVal.str "sensor_data"),
     ("data", JVal.obj [("temp", JVal.num 21)])] rfl (fun _ => rfl) rfl

/-- C8: on a `firmware_update_status` frame, the persisted
`firmware_version` is set to the reported version iff the reported
status equals the success marker `"success"` (otherwise the store is
untouched), and the `firmware_update_status` event carrying device id,
status and version is broadcast to every dashboard connection in
either case, with the handler continuing normally. -/
theorem C8_firmware_update_iff_success (env : Env) (s : SysState)
    (d : String) (fields : List (String × JVal))
    (hsend : ∀ c, env.sendFails c = false)
    (hty : jget fields "type" = some (JVal.str "firmware_update_status"))
    (hrec : (s.devices.find? (fun r => r.id == d)).isSome = true) :
    (((jget fields "status").getD JVal.null).isStr "success" = true →
       firmwareOf (processFrame env s d (.obj fields)).1.devices d
         = some ((jget fields "version").getD JVal.null))
    ∧ (((jget fields "status").getD JVal.null).isStr "success" = false →
       (processFrame env s d (.obj fields)).1.devices = s.devices)
    ∧ (processFrame env s d (.obj fields)).1.sent
        = s.sent ++ (s.mgr.active_connections.map (·.2)).map
            (fun c => (c, Msg.firmwareUpdateStatus d
              ((jget fields "status").getD JVal.null)
              ((jget fields "version").getD JVal.null)))
    ∧ (processFrame env s d (.obj fields)).2 = none := by
  have e1 : (("firmware_update_status" : String) == "sensor_data") = false := rfl
  have e2 : (("firmware_update_status" : String)
      == "firmware_update_status") = true := rfl
  by_cases hsucc : ((jget fields "status").getD JVal.null).isStr "success" = true
  · refine ⟨fun _ => ?_, fun hc => absurd hsucc (by simp [hc]), ?_, ?_⟩
    · simp only [processFrame, hty, e1, e2, Bool.false_eq_true, if_false,
        if_true, hsucc]
      simp [doBroadcast, ConnectionManager.broadcast_to_users,
        broadcastRun_no_fail env.sendFails hsend,
        firmwareOf_updateFirst_set s.devices d _ hrec]
    · simp only [processFrame, hty, e1, e2, Bool.false_eq_true, if_false,
        if_true, hsucc]
      simp [doBroadcast, ConnectionManager.broadcast_to_users,
        broadcastRun_no_fail env.sendFails hsend]
    · simp only [processFrame, hty, e1, e2, Bool.false_eq_true, if_false,
        if_true, hsucc]
      simp [doBroadcast, ConnectionManager.broadcast_to_users,
        broadcastRun_no_fail env.sendFails hsend]
  · have hsucc' : ((jget fields "status").getD JVal.null).isStr "success"
        = false := Bool.eq_false_iff.mpr hsucc
    refine ⟨fun hc => absurd hc hsucc, fun _ => ?_, ?_, ?_⟩
    · simp only [processFrame, hty, e1, e2, Bool.false_eq_true, if_false,
        if_true, hsucc']
      simp [doBroadcast, ConnectionManager.broadcast_to_users,
        broadcastRun_no_fail env.sendFails hsend]
    · simp only [processFrame, hty, e1, e2, Bool.false_eq_true, if_false,
        if_true, hsucc']
      simp [doBroadcast, ConnectionManager.broadcast_to_users,
        broadcastRun_no_fail env.sendFails hsend]
    · simp only [processFrame, hty, e1, e2, Bool.false_eq_true, if_false,
        if_true, hsucc']
      simp [doBroadcast, ConnectionManager.broadcast_to_users,
        broadcastRun_no_fail env.sendFails hsend]

/-- Witness for C8 at a concrete successful firmware report. -/
theorem C8_witness :
    (JVal.isStr (JVal.str "success") "success" = true →
       firmwareOf (processFrame envOK sDash "d1" (.obj fwFields)).1.devices "d1"
         = some (JVal.str "2.0.0"))
    ∧ (JVal.isStr (JVal.str "success") "success" = false →
       (processFrame envOK sDash "d1" (.obj fwFields)).1.devices = sDash.devices)
    ∧ (processFrame envOK sDash "d1" (.obj fwFields)).1.sent
        = [(1, Msg.firmwareUpdateStatus "d1" (JVal.str "success")
              (JVal.str "2.0.0"))]
    ∧ (processFrame envOK sDash "d1" (.obj fwFields)).2 = none :=
  C8_firmware_update_iff_success envOK sDash "d1" fwFields
    (fun _ => rfl) rfl rfl

/-- C9: `send_to_device` to a device id with no registered channel is a
pure no-op (the model is total, so nothing is raised); hence
`control_pin` for an owned, existing device record with no live channel
returns the normal success response with the state unchanged and no
message sent, while the 404 error is returned exactly when no record
matches the device id and the requesting owner. -/
theorem C9_unicast_noop_and_dispatch (s : SysState) (uid did pin : String)
    (v : JVal) :
    (dictMem s.mgr.device_connections did = false →
       (∀ msg, send_to_device s did msg = s)
       ∧ ((s.devices.find?
             (fun r => r.id == did && r.user_id == uid)).isSome = true →
           control_pin s uid did pin v = (s, ApiResult.ok pin v)))
    ∧ (s.devices.find? (fun r => r.id == did && r.user_id == uid) = none →
       control_pin s uid did pin v
         = (s, ApiResult.httpError 404 "Device not found")) := by
  constructor
  · intro hch
    have hlk : dictLookup s.mgr.device_connections did = none :=
      dictLookup_eq_none_of_not_mem _ _ hch
    constructor
    · intro msg
      simp [send_to_device, hlk]
    · intro hrec
      obtain ⟨r, hr⟩ := Option.isSome_iff_exists.mp hrec
      simp [control_pin, hr, send_to_device, hlk]
  · intro hnone
    simp [control_pin, hnone]

/-- Witness for C9: owned device with no live channel yields success
and a no-op; a non-owner gets the 404. -/
theorem C9_witness :
    send_to_device sDash "d1" (Msg.pinControl "p5" (JVal.num 1)) = sDash
    ∧ control_pin sDash "u1" "d1" "p5" (JVal.num 1)
        = (sDash, ApiResult.ok "p5" (JVal.num 1))
    ∧ control_pin sDash "u2" "d1" "p5" (JVal.num 1)
        = (sDash, ApiResult.httpError 404 "Device not found") :=
  ⟨((C9_unicast_noop_and_dispatch sDash "u1" "d1" "p5" (JVal.num 1)).1 rfl).1 _,
   ((C9_unicast_noop_and_dispatch sDash "u1" "d1" "p5" (JVal.num 1)).1 rfl).2 rfl,
   (C9_unicast_noop_and_dispatch sDash "u2" "d1" "p5" (JVal.num 1)).2 rfl⟩

/-- C10: the dashboard endpoint accepts and registers *any* user id in
the dashboard partition — the handler performs no token, credential or
identity check (it is total in `user_id` and unconditionally accepts
and registers) — and neither connect nor the full session touches the
persisted store, sends any message, or closes anything; the device
partition is untouched as well. -/
theorem C10_dashboard_open_admission (s : SysState) (uid : String)
    (ws : ChannelId) (msgs : List String) :
    dictLookup (dashboardConnect s uid ws).mgr.active_connections uid = some ws
    ∧ (dashboardConnect s uid ws).accepted = s.accepted ++ [ws]
    ∧ (dashboardConnect s uid ws).devices = s.devices
    ∧ (dashboardConnect s uid ws).sent = s.sent
    ∧ (websocket_dashboard s uid ws msgs).devices = s.devices
    ∧ (websocket_dashboard s uid ws msgs).sensor_data = s.sensor_data
    ∧ (websocket_dashboard s uid ws msgs).sent = s.sent
    ∧ (websocket_dashboard s uid ws msgs).closes = s.closes
    ∧ (websocket_dashboard s uid ws msgs).mgr.device_connections
        = s.mgr.device_connections :=
  ⟨dictLookup_dictSet_self s.mgr.active_connections uid ws,
   rfl, rfl, rfl, rfl, rfl, rfl, rfl, rfl⟩

end IoTHub
